import Mathlib

/-!
Verification of the stroke-outcome data-preparation pipeline
(notebooks: 01_clean_raw_data, 02_reformat_data_ml, 03 k-fold split).

Tabular values are embedded as `Val := Option ℤ`: `none` models a pandas
NaN (missing) cell, `some x` a recorded integer value.  All comparisons
follow pandas semantics: any comparison against NaN is `False`, and
arithmetic propagates NaN.
-/

namespace Stroke

/-- A cell of a numeric column: `none` is pandas NaN. -/
abbrev Val := Option ℤ

/-- pandas `v >= c` (False on NaN). -/
def vge (v : Val) (c : ℤ) : Bool :=
  match v with
  | some x => decide (c ≤ x)
  | none => false

/-- pandas `v <= c` (False on NaN). -/
def vle (v : Val) (c : ℤ) : Bool :=
  match v with
  | some x => decide (x ≤ c)
  | none => false

/-- pandas `v > c` (False on NaN). -/
def vgt (v : Val) (c : ℤ) : Bool :=
  match v with
  | some x => decide (c < x)
  | none => false

/-- pandas `v < c` (False on NaN). -/
def vlt (v : Val) (c : ℤ) : Bool :=
  match v with
  | some x => decide (x < c)
  | none => false

/-- pandas `v == c` (False on NaN). -/
def veq (v : Val) (c : ℤ) : Bool :=
  match v with
  | some x => decide (x = c)
  | none => false

/-- pandas addition: NaN propagates. -/
def vadd (a b : Val) : Val :=
  match a, b with
  | some x, some y => some (x + y)
  | _, _ => none

/-- pandas subtraction: NaN propagates. -/
def vsub (a b : Val) : Val :=
  match a, b with
  | some x, some y => some (x - y)
  | _, _ => none

/-- pandas row-wise `max` with `skipna=True`. -/
def vmax (a b : Val) : Val :=
  match a, b with
  | some x, some y => some (max x y)
  | some x, none => some x
  | none, some y => some y
  | none, none => none

/-- pandas row-wise `min` with `skipna=True` (binary step). -/
def vmin (a b : Val) : Val :=
  match a, b with
  | some x, some y => some (min x y)
  | some x, none => some x
  | none, some y => some y
  | none, none => none

/-- pandas `DataFrame.min(axis=1)` over a list of cells: minimum of the
recorded values, NaN when every cell is NaN. -/
def vminList (l : List Val) : Val :=
  l.foldl vmin none

/-! ## Reformatter (02_reformat_data_ml.ipynb)

One row of the cleaned table as read by the reformatter, restricted to
the columns the reformatter's logic touches. -/

structure DataRow where
  year : Val
  infarction : Val
  arrive_by_ambulance : Val
  thrombectomy : Val
  prior_disability : Val
  discharge_disability : Val
  onset_to_arrival_time : Val
  onset_known : Val
  stroke_team : String
  thrombolysis : Val
  arrival_to_scan_time : Val
  scan_to_thrombolysis_time : Val
  deriving DecidableEq, Repr

/-- Constant `min_hospital_thrombolysis_threshold` from the notebook. -/
def min_hospital_thrombolysis_threshold : ℤ := 10

/-- Constant `min_hospital_admission_threshold` from the notebook. -/
def min_hospital_admission_threshold : ℤ := 250

/-- Constant `set_duration_not_get_thrombolysis` from the notebook. -/
def set_duration_not_get_thrombolysis : ℤ := -100

/-- The "Filter patients on patient characteristic" cell: the eight
sequential boolean masks.  Note the onset-to-arrival step is coded as
`mask = data[...] <= 0; mask = mask == False`, so a NaN cell (for which
`<= 0` is False) passes the filter. -/
def filterPatients (data : List DataRow) : List DataRow :=
  let d1 := data.filter (fun r => vge r.year 2016)
  let d2 := d1.filter (fun r => veq r.infarction 1)
  let d3 := d2.filter (fun r => veq r.arrive_by_ambulance 1)
  let d4 := d3.filter (fun r => veq r.thrombectomy 0)
  let d5 := d4.filter (fun r => vge r.prior_disability 0)
  let d6 := d5.filter (fun r => vge r.discharge_disability 0)
  let d7 := d6.filter (fun r => !(vle r.onset_to_arrival_time 0))
  d7.filter (fun r => veq r.onset_known 1)

/-- Python `str.strip()`: drop leading and trailing whitespace. -/
def pyStrip (s : String) : String :=
  ⟨(((s.data.dropWhile Char.isWhitespace).reverse.dropWhile
      Char.isWhitespace).reverse)⟩

/-- Python `str.rstrip()`: drop trailing whitespace. -/
def pyRStrip (s : String) : String :=
  ⟨((s.data.reverse.dropWhile Char.isWhitespace).reverse)⟩

/-- Cell `data["stroke_team"].apply(lambda x: x.strip())`. -/
def stripRow (r : DataRow) : DataRow :=
  { r with stroke_team := pyStrip r.stroke_team }

/-- Aggregate `data.groupby(['stroke_team'])['stroke_team'].count()` evaluated at
one team: the number of rows of that team. -/
def stroke_team_admissions (data : List DataRow) (team : String) : ℤ :=
  ((data.filter (fun r => r.stroke_team = team)).length : ℤ)

/-- Aggregate `data.groupby(['stroke_team'])['thrombolysis'].sum()` evaluated at
one team (pandas sum skips NaN). -/
def stroke_team_thrombolysis (data : List DataRow) (team : String) : ℤ :=
  ((data.filter (fun r => r.stroke_team = team)).map
    (fun r => r.thrombolysis.getD 0)).sum

/-- Function `filter_stroke_team`: keep rows whose team's aggregate value passes
`mask = stroke_team_values >= min_threshold`. -/
def filter_stroke_team (data : List DataRow) (min_threshold : ℤ)
    (stroke_team_values : String → ℤ) : List DataRow :=
  data.filter (fun r => min_threshold ≤ stroke_team_values r.stroke_team)

/-- The two hospital-volume gates applied sequentially: admissions
aggregate on the incoming table, then the thrombolysis aggregate
recomputed on the already admission-filtered table. -/
def hospitalFilter (data : List DataRow) : List DataRow :=
  let d1 := filter_stroke_team data min_hospital_admission_threshold
    (stroke_team_admissions data)
  filter_stroke_team d1 min_hospital_thrombolysis_threshold
    (stroke_team_thrombolysis d1)

/-- Cell `data.loc[data['thrombolysis'] == 0, 'scan_to_thrombolysis_time'] = -100`. -/
def setScanRow (r : DataRow) : DataRow :=
  if veq r.thrombolysis 0 then
    { r with scan_to_thrombolysis_time := some set_duration_not_get_thrombolysis }
  else r

/-- Function `calculate_onset_to_thrombolysis` from the notebook: default -100,
replaced by the three-component sum when `scan_to_thrombolysis_time != -100`
(a NaN cell compares unequal to -100, so the sum — NaN — is taken). -/
def calculate_onset_to_thrombolysis (r : DataRow) : Val :=
  if r.scan_to_thrombolysis_time = some (-100) then some (-100)
  else
    vadd (vadd r.onset_to_arrival_time r.arrival_to_scan_time)
      r.scan_to_thrombolysis_time

/-- A row of the reformatted cohort: the cleaned row plus the composite
duration feature (the final column drop is not modelled; it only removes
columns). -/
structure CohortRow extends DataRow where
  onset_to_thrombolysis_time : Val
  deriving DecidableEq, Repr

/-- Attach the composite feature to a row. -/
def addOnsetToThrombolysis (r : DataRow) : CohortRow :=
  { r with onset_to_thrombolysis_time := calculate_onset_to_thrombolysis r }

/-- The reformatter pipeline on the cleaned table: patient filters,
whitespace strip, hospital-volume gates, the -100 sentinel edit, and the
composite-duration feature. -/
def reformat (data : List DataRow) : List CohortRow :=
  let d1 := filterPatients data
  let d2 := d1.map stripRow
  let d3 := hospitalFilter d2
  let d4 := d3.map setScanRow
  d4.map addOnsetToThrombolysis

/-! ## Site-code assignment (team_code cell of 02_reformat_data_ml.ipynb)

`random.shuffle` is CPython Fisher-Yates: for positions `i = n-1 .. 1`
it draws `j = randbelow(i+1)` and swaps positions `i` and `j`.  The
drawn values depend only on the seed, so they are embedded as an
explicit list `js` (one entry per swap step, reduced mod `i+1`).  The
enumeration order of `list(set(data['stroke_team']))` is unspecified in
CPython (string hashing is salted per process), so the distinct team
labels enter as an explicitly ordered list. -/

/-- Swap the entries at positions `i` and `j` (no-op when out of range). -/
def listSwap {α : Type} (l : List α) (i j : ℕ) : List α :=
  match l[i]?, l[j]? with
  | some x, some y => (l.set i y).set j x
  | _, _ => l

/-- Fisher-Yates main loop: current position `i+1` swaps with a drawn
index in `[0, i+1]`. -/
def shuffleAux {α : Type} : List ℕ → ℕ → List α → List α
  | _, 0, l => l
  | [], _ + 1, l => l
  | j :: js, i + 1, l => shuffleAux js i (listSwap l (i + 1) (j % (i + 2)))

/-- Call `random.seed(42); random.shuffle(teams)` with the seeded draws `js`. -/
def shuffleWith {α : Type} (js : List ℕ) (l : List α) : List α :=
  shuffleAux js (l.length - 1) l

/-- Dict `teams_code_dict`: enumerate the shuffled team list and pair each
team with its position plus one (codes start at 1), in insertion order. -/
def teamsCodeDict (js : List ℕ) (teams : List String) : List (String × ℕ) :=
  (shuffleWith js teams).enum.map (fun p => (p.2, p.1 + 1))

/-! ## Fold Splitter (k-fold notebook) -/

/-- One row of the reformatted table as the fold-splitter notebook uses
it: the team name column, the anonymised team code, and the outcome. -/
structure SplitRow where
  stroke_team : String
  stroke_team_id : ℤ
  discharge_disability : ℤ
  deriving DecidableEq, Repr

/-- Key `strat = data['stroke_team'].map(str) + '-' +
data['discharge_disability'].map(str)`: the team-name string, a dash,
and the printed outcome value. -/
def strat (r : SplitRow) : String :=
  r.stroke_team ++ "-" ++ toString r.discharge_disability

/-- The stratification key in the words of the spec sentence under
check: the string concatenation of the anonymised site code and the
outcome label (shown here with the same dash join). -/
def stratSpecKey (r : SplitRow) : String :=
  toString r.stroke_team_id ++ "-" ++ toString r.discharge_disability

/-- The spec sentence's key without any separator. -/
def stratSpecKeyNoSep (r : SplitRow) : String :=
  toString r.stroke_team_id ++ toString r.discharge_disability

/-- Modelled from the spec: `sklearn.model_selection.StratifiedKFold`
(library code, not in this repository) assigns every row index to
exactly one test fold; `split` then yields, for fold `i`, the indices
whose assignment is `i` as the test set.  `tf` is that per-row fold
assignment. -/
def testFold (n k : ℕ) (tf : Fin n → Fin k) (i : Fin k) : List (Fin n) :=
  (List.finRange n).filter (fun x => tf x = i)

/-- Modelled from the spec: the train indices sklearn yields for fold
`i` are the complement mask, i.e. the indices not assigned to `i`. -/
def trainFold (n k : ℕ) (tf : Fin n → Fin k) (i : Fin k) : List (Fin n) :=
  (List.finRange n).filter (fun x => tf x ≠ i)

/-! ## Cleaner (01_clean_raw_data.ipynb)

One row of the raw SSNAP extract, restricted to the columns the claims
touch.  Categorical cells are `Option String` (`none` = empty cell);
numeric cells are `Val`.  The fifteen `S2NihssArrival*` sub-item
columns are kept as a list, in the notebook's column order. -/

structure RawRecord where
  TeamName : String
  S1Gender : Option String
  S2StrokeType : Option String
  OnsettoArrivalMinutes : Val
  S1OnsetTimeType : Option String
  S1OnsetDateType : Option String
  S1ArriveByAmbulance : Option String
  CallConnectedtoArrivalMinutes : Val
  ArrivalPatientLocationtoArrivalMinutes : Val
  DeparturePatientLocationtoArrivalMinutes : Val
  WheelsStoptoArrivalMinutes : Val
  ArrivaltoBrainImagingMinutes : Val
  S2Thrombolysis : Option String
  ArrivaltoThrombolysisMinutes : Val
  ArrivaltoArterialPunctureMinutes : Val
  S2CoMCongestiveHeartFailure : Option String
  S2CoMHypertension : Option String
  S2CoMAtrialFibrillation : Option String
  S2CoMDiabetes : Option String
  S2CoMStrokeTIA : Option String
  S2CoMAFAntiplatelet : Option String
  S2CoMAFAnticoagulent : Option String
  S2CoMAFAnticoagulentVitK : Val
  S2CoMAFAnticoagulentDOAC : Val
  S2CoMAFAnticoagulentHeparin : Val
  S2NewAFDiagnosis : Option String
  S2RankinBeforeStroke : Val
  nihssScores : List Val
  S7DischargeType : Option String
  ArrivalToDeathDays : Val
  S7RankinDischarge : Val
  S8Rankin6Month : Val
  S2ThrombolysisNoReason : Option String
  deriving DecidableEq, Repr

/- `pandas.Series.map` with a finite dict: keys not in the dict (and,
unless the dict has a NaN key, empty cells) become NaN. -/

/-- The dict `gender = {'M': 1, 'F': 0}`. -/
def mapGender : Option String → Val
  | some s => if s = "M" then some 1 else if s = "F" then some 0 else none
  | none => none

/-- The dict `infarction = {'I': 1, 'PIH': 0}`. -/
def mapInfarction : Option String → Val
  | some s => if s = "I" then some 1 else if s = "PIH" then some 0 else none
  | none => none

/-- The dict `onset_known = {'NK': 0, 'P': 1, 'BE': 1}`. -/
def mapOnsetKnown : Option String → Val
  | some s =>
    if s = "NK" then some 0
    else if s = "P" then some 1
    else if s = "BE" then some 1 else none
  | none => none

/-- The dict `precise_onset_known = {'P': 1, 'BE': 0, 'NK': 0}`. -/
def mapPreciseOnset : Option String → Val
  | some s =>
    if s = "P" then some 1
    else if s = "BE" then some 0
    else if s = "NK" then some 0 else none
  | none => none

/-- The dict `sleep = {'DS': 1, 'P': 0, 'BE': 0}`. -/
def mapSleep : Option String → Val
  | some s =>
    if s = "DS" then some 1
    else if s = "P" then some 0
    else if s = "BE" then some 0 else none
  | none => none

/-- The dict `by_ambulance = {'Y': 1, 'N': 0}`. -/
def mapByAmbulance : Option String → Val
  | some s => if s = "Y" then some 1 else if s = "N" then some 0 else none
  | none => none

/-- The dict `thrombolysis = {'Y': 1, 'N': 0, 'NB': 0}`. -/
def mapThrombolysisYN : Option String → Val
  | some s =>
    if s = "Y" then some 1
    else if s = "N" then some 0
    else if s = "NB" then some 0 else none
  | none => none

/-- The dict `comorbid_marker = {'Y': 1, 'N': 0, 'NB': 0, np.nan: np.nan}`. -/
def comorbid_marker : Option String → Val
  | some s =>
    if s = "Y" then some 1
    else if s = "N" then some 0
    else if s = "NB" then some 0 else none
  | none => none

/-- The dict `anticoag_type_map = {1: 1, 0: 0, np.nan: 0}` (also applied to the
cleaned `afib_anticoagulant` column to replace its NaN with 0). -/
def anticoag_type_map : Val → Val
  | some x => if x = 1 then some 1 else if x = 0 then some 0 else none
  | none => some 0

/-- The dict `new_afib = {'Y': 1, 'N': 0, np.nan: 0}`. -/
def mapNewAfib : Option String → Val
  | some s => if s = "Y" then some 1 else if s = "N" then some 0 else none
  | none => some 0

/-- The `discharge` destination dict, with `np.NaN: 'missing'`. -/
def mapDischarge : Option String → Option String
  | some s =>
    if s = "CH" then some ("care_home")
    else if s = "D" then some ("died")
    else if s = "H" then some ("home")
    else if s = "SE" then some ("somewhere_else")
    else if s = "TC" then some ("community_team_or_esd")
    else if s = "TCN" then some ("community_team_or_esd")
    else if s = "TN" then some ("non_ssnap_hospital_team")
    else if s = "T" then some ("ssnap_hospital_team")
    else none
  | none => some ("missing")

/-- Function `make_no_thrombolysis(category)`: every known reason code (and an
empty cell) maps to 0, the chosen category to 1, anything else to NaN. -/
def make_no_thrombolysis (category : String) : Option String → Val
  | some s =>
    if s = category then some 1
    else if s = "TNA" then some 0
    else if s = "OTSH" then some 0
    else if s = "USQE" then some 0
    else if s = "N" then some 0 else none
  | none => some 0

/-- One row of the cleaned table (columns the claims touch). -/
structure CleanRecord where
  stroke_team : String
  male : Val
  infarction : Val
  onset_to_arrival_time : Val
  onset_known : Val
  precise_onset_known : Val
  onset_during_sleep : Val
  arrive_by_ambulance : Val
  call_to_ambulance_arrival_time : Val
  ambulance_on_scene_time : Val
  ambulance_travel_to_hospital_time : Val
  ambulance_wait_time_at_hospital : Val
  arrival_to_scan_time : Val
  thrombolysis : Val
  scan_to_thrombolysis_time : Val
  thrombectomy : Val
  arrival_to_thrombectomy_time : Val
  congestive_heart_failure : Val
  hypertension : Val
  atrial_fibrillation : Val
  diabetes : Val
  prior_stroke_tia : Val
  afib_antiplatelet : Val
  afib_anticoagulant : Val
  afib_vit_k_anticoagulant : Val
  afib_doac_anticoagulant : Val
  afib_heparin_anticoagulant : Val
  new_afib_diagnosis : Val
  any_afib_diagnosis : Val
  prior_disability : Val
  nihss_complete : Val
  discharge_destination : Option String
  death : Val
  discharge_disability : Val
  disability_6_month : Val
  thrombolysis_no_not_available : Val
  thrombolysis_no_out_of_hours : Val
  thrombolysis_no_scan_not_quick_enough : Val
  thrombolysis_no_no_reason : Val
  deriving DecidableEq, Repr

/-- The field derivations of the cleaning notebook (every cell before
the "Deal with unusual results" section), one raw row at a time.  The
antiplatelet fix-up and the `afib_anticoagulant` NaN-to-0 replacement
are part of these cells and are included here. -/
def cleanBase (raw : RawRecord) : CleanRecord :=
  { stroke_team := pyRStrip raw.TeamName
    male := mapGender raw.S1Gender
    infarction := mapInfarction raw.S2StrokeType
    onset_to_arrival_time := raw.OnsettoArrivalMinutes
    onset_known := mapOnsetKnown raw.S1OnsetTimeType
    precise_onset_known := mapPreciseOnset raw.S1OnsetTimeType
    onset_during_sleep := mapSleep raw.S1OnsetDateType
    arrive_by_ambulance := mapByAmbulance raw.S1ArriveByAmbulance
    call_to_ambulance_arrival_time :=
      vsub raw.ArrivalPatientLocationtoArrivalMinutes
        raw.CallConnectedtoArrivalMinutes
    ambulance_on_scene_time :=
      vsub raw.DeparturePatientLocationtoArrivalMinutes
        raw.ArrivalPatientLocationtoArrivalMinutes
    ambulance_travel_to_hospital_time :=
      vsub raw.WheelsStoptoArrivalMinutes
        raw.DeparturePatientLocationtoArrivalMinutes
    ambulance_wait_time_at_hospital :=
      vsub (some 0) raw.WheelsStoptoArrivalMinutes
    arrival_to_scan_time := raw.ArrivaltoBrainImagingMinutes
    thrombolysis := mapThrombolysisYN raw.S2Thrombolysis
    scan_to_thrombolysis_time :=
      vsub raw.ArrivaltoThrombolysisMinutes raw.ArrivaltoBrainImagingMinutes
    thrombectomy :=
      some (if raw.ArrivaltoArterialPunctureMinutes.isNone then 0 else 1)
    arrival_to_thrombectomy_time := raw.ArrivaltoArterialPunctureMinutes
    congestive_heart_failure := comorbid_marker raw.S2CoMCongestiveHeartFailure
    hypertension := comorbid_marker raw.S2CoMHypertension
    atrial_fibrillation := comorbid_marker raw.S2CoMAtrialFibrillation
    diabetes := comorbid_marker raw.S2CoMDiabetes
    prior_stroke_tia := comorbid_marker raw.S2CoMStrokeTIA
    afib_antiplatelet :=
      if comorbid_marker raw.S2CoMAtrialFibrillation = some 0 ∧
          comorbid_marker raw.S2CoMAFAntiplatelet = none then some 0
      else comorbid_marker raw.S2CoMAFAntiplatelet
    afib_anticoagulant :=
      anticoag_type_map (comorbid_marker raw.S2CoMAFAnticoagulent)
    afib_vit_k_anticoagulant := anticoag_type_map raw.S2CoMAFAnticoagulentVitK
    afib_doac_anticoagulant := anticoag_type_map raw.S2CoMAFAnticoagulentDOAC
    afib_heparin_anticoagulant :=
      anticoag_type_map raw.S2CoMAFAnticoagulentHeparin
    new_afib_diagnosis := mapNewAfib raw.S2NewAFDiagnosis
    any_afib_diagnosis :=
      vmax (comorbid_marker raw.S2CoMAtrialFibrillation)
        (mapNewAfib raw.S2NewAFDiagnosis)
    prior_disability := raw.S2RankinBeforeStroke
    nihss_complete :=
      some (if vminList raw.nihssScores = some (-1) then 0 else 1)
    discharge_destination := mapDischarge raw.S7DischargeType
    death := some (if vge raw.ArrivalToDeathDays 0 then 1 else 0)
    discharge_disability := raw.S7RankinDischarge
    disability_6_month := raw.S8Rankin6Month
    thrombolysis_no_not_available :=
      make_no_thrombolysis ("TNA") raw.S2ThrombolysisNoReason
    thrombolysis_no_out_of_hours :=
      make_no_thrombolysis ("OTSH") raw.S2ThrombolysisNoReason
    thrombolysis_no_scan_not_quick_enough :=
      make_no_thrombolysis ("USQE") raw.S2ThrombolysisNoReason
    thrombolysis_no_no_reason :=
      make_no_thrombolysis ("N") raw.S2ThrombolysisNoReason }

/-! ### Consistency passes ("Deal with unusual results")

Every mask in the notebook is a row-wise condition, so the passes are
embedded one row at a time; each pass computes its masks on its input
record (matching the notebook's cell order) and nulls fields. -/

/-- Any of the four ambulance durations is NaN. -/
def time_missing (c : CleanRecord) : Bool :=
  c.call_to_ambulance_arrival_time.isNone ||
  c.ambulance_on_scene_time.isNone ||
  c.ambulance_travel_to_hospital_time.isNone ||
  c.ambulance_wait_time_at_hospital.isNone

/-- All four ambulance durations are NaN. -/
def time_all_missing (c : CleanRecord) : Bool :=
  c.call_to_ambulance_arrival_time.isNone &&
  c.ambulance_on_scene_time.isNone &&
  c.ambulance_travel_to_hospital_time.isNone &&
  c.ambulance_wait_time_at_hospital.isNone

/-- Any of the four ambulance durations is negative. -/
def time_negative (c : CleanRecord) : Bool :=
  vlt c.call_to_ambulance_arrival_time 0 ||
  vlt c.ambulance_on_scene_time 0 ||
  vlt c.ambulance_travel_to_hospital_time 0 ||
  vlt c.ambulance_wait_time_at_hospital 0

/-- Any ambulance duration except the hospital wait is zero. -/
def time_zero (c : CleanRecord) : Bool :=
  veq c.call_to_ambulance_arrival_time 0 ||
  veq c.ambulance_on_scene_time 0 ||
  veq c.ambulance_travel_to_hospital_time 0

/-- Mask `arrive_by_ambulance == 0` yet some ambulance duration recorded. -/
def times_but_no_amb (c : CleanRecord) : Bool :=
  veq c.arrive_by_ambulance 0 &&
  (c.call_to_ambulance_arrival_time.isSome ||
   c.ambulance_on_scene_time.isSome ||
   c.ambulance_travel_to_hospital_time.isSome ||
   c.ambulance_wait_time_at_hospital.isSome)

/-- Call-to-arrival above 24 h. -/
def call_time_high (c : CleanRecord) : Bool :=
  vgt c.call_to_ambulance_arrival_time 1440

/-- On-scene time above 12 h. -/
def scene_time_high (c : CleanRecord) : Bool :=
  vgt c.ambulance_on_scene_time 720

/-- Travel time above 6 h. -/
def travel_time_high (c : CleanRecord) : Bool :=
  vgt c.ambulance_travel_to_hospital_time 360

/-- Hospital wait above 12 h. -/
def wait_time_high (c : CleanRecord) : Bool :=
  vgt c.ambulance_wait_time_at_hospital 720

/-- Any condition that nulls the four ambulance columns (the
`times_but_no_amb` mask additionally nulls `arrive_by_ambulance`). -/
def ambAnyIssue (c : CleanRecord) : Bool :=
  time_missing c || time_negative c || time_zero c ||
  call_time_high c || scene_time_high c || travel_time_high c ||
  wait_time_high c

/-- The "Unusual ambulance times" cell: all masks computed on the
incoming record, then applied. -/
def ambPass (c : CleanRecord) : CleanRecord :=
  let c1 :=
    if ambAnyIssue c || times_but_no_amb c then
      { c with call_to_ambulance_arrival_time := none
               ambulance_on_scene_time := none
               ambulance_travel_to_hospital_time := none
               ambulance_wait_time_at_hospital := none }
    else c
  if times_but_no_amb c then { c1 with arrive_by_ambulance := none } else c1

/-- Onset-to-arrival is recorded but zero or negative. -/
def onset_negative (c : CleanRecord) : Bool :=
  vle c.onset_to_arrival_time 0

/-- Onset time marked not known. -/
def onset_unknown (c : CleanRecord) : Bool :=
  veq c.onset_known 0

/-- The "Unusual onset to arrival times" cell. -/
def onsetPass (c : CleanRecord) : CleanRecord :=
  if onset_negative c || onset_unknown c then
    { c with onset_to_arrival_time := none }
  else c

/-- Parent anticoagulant indicator 0 while some sub-type is 1. -/
def anticoag_discrep (c : CleanRecord) : Bool :=
  veq c.afib_anticoagulant 0 &&
  (veq c.afib_vit_k_anticoagulant 1 ||
   veq c.afib_doac_anticoagulant 1 ||
   veq c.afib_heparin_anticoagulant 1)

/-- The "Inconsistent anticoagulant data" cell. -/
def anticoagPass (c : CleanRecord) : CleanRecord :=
  if anticoag_discrep c then
    { c with afib_anticoagulant := none
             afib_vit_k_anticoagulant := none
             afib_doac_anticoagulant := none
             afib_heparin_anticoagulant := none }
  else c

/-- Some marker indicates death. -/
def any_death (c : CleanRecord) : Bool :=
  veq c.death 1 || veq c.discharge_disability 6 ||
  c.discharge_destination = some ("died")

/-- Every death marker indicates death or is missing. -/
def all_or_missing_death (c : CleanRecord) : Bool :=
  (veq c.death 1 || c.death.isNone) &&
  (veq c.discharge_disability 6 || c.discharge_disability.isNone) &&
  (c.discharge_destination = some ("died") ||
   c.discharge_destination.isNone)

/-- The "Inconsistent death markers" cell. -/
def deathPass (c : CleanRecord) : CleanRecord :=
  if any_death c && !(all_or_missing_death c) then
    { c with death := none
             discharge_disability := none
             discharge_destination := none }
  else c

/-- The whole cleaning of one raw row: derivations then the four
consistency passes in notebook order. -/
def cleanRow (raw : RawRecord) : CleanRecord :=
  deathPass (anticoagPass (onsetPass (ambPass (cleanBase raw))))

/-- One row of the issues log. -/
structure IssueRecord where
  stroke_team : String
  time_some_missing : Bool
  time_negative : Bool
  time_zero : Bool
  times_but_no_amb : Bool
  call_time_high : Bool
  scene_time_high : Bool
  travel_time_high : Bool
  wait_time_high : Bool
  onset_negative : Bool
  onset_unknown : Bool
  anticoag_discrep : Bool
  inconsistent_death : Bool
  missing_stroke_type : Bool
  deriving DecidableEq, Repr

/-- The issue flags of one raw row, each computed on the table state at
the point its notebook cell runs (ambulance flags on the freshly derived
record, onset flags after the ambulance pass, and so on). -/
def issueRow (raw : RawRecord) : IssueRecord :=
  let b := cleanBase raw
  let a := ambPass b
  let o := onsetPass a
  let t := anticoagPass o
  { stroke_team := b.stroke_team
    time_some_missing := !time_all_missing b && time_missing b
    time_negative := time_negative b
    time_zero := time_zero b
    times_but_no_amb := times_but_no_amb b
    call_time_high := call_time_high b
    scene_time_high := scene_time_high b
    travel_time_high := travel_time_high b
    wait_time_high := wait_time_high b
    onset_negative := onset_negative a
    onset_unknown := onset_unknown a
    anticoag_discrep := anticoag_discrep o
    inconsistent_death := any_death t && !(all_or_missing_death t)
    missing_stroke_type := (cleanRow raw).infarction.isNone }

/-- Table `new_cleaned_data`: the saved clean table, keeping only rows whose
post-cleaning stroke-type is recorded. -/
def cleanTable (raws : List RawRecord) : List CleanRecord :=
  (raws.map cleanRow).filter (fun c => c.infarction.isSome)

/-- Table `issues`: the saved issues log, one row per raw row, never filtered. -/
def issuesTable (raws : List RawRecord) : List IssueRecord :=
  raws.map issueRow

/-! ## Predicates and concrete tables used by the theorems -/

/-- A boolean/indicator cell is 0, 1 or missing. -/
def IndOK (v : Val) : Prop :=
  v = some 0 ∨ v = some 1 ∨ v = none

/-- Every derived boolean/indicator field of a clean record is 0, 1 or
missing: sex, stroke type, the onset indicators, transport, treatment
indicators, every comorbidity indicator, death, the assessment-complete
flag and the reason-for-no-treatment indicators. -/
def IndFieldsOK (c : CleanRecord) : Prop :=
  IndOK c.male ∧ IndOK c.infarction ∧ IndOK c.onset_known ∧
  IndOK c.precise_onset_known ∧ IndOK c.onset_during_sleep ∧
  IndOK c.arrive_by_ambulance ∧ IndOK c.thrombolysis ∧
  IndOK c.thrombectomy ∧ IndOK c.congestive_heart_failure ∧
  IndOK c.hypertension ∧ IndOK c.atrial_fibrillation ∧
  IndOK c.diabetes ∧ IndOK c.prior_stroke_tia ∧
  IndOK c.afib_antiplatelet ∧ IndOK c.afib_anticoagulant ∧
  IndOK c.afib_vit_k_anticoagulant ∧ IndOK c.afib_doac_anticoagulant ∧
  IndOK c.afib_heparin_anticoagulant ∧ IndOK c.new_afib_diagnosis ∧
  IndOK c.any_afib_diagnosis ∧ IndOK c.death ∧ IndOK c.nihss_complete ∧
  IndOK c.thrombolysis_no_not_available ∧
  IndOK c.thrombolysis_no_out_of_hours ∧
  IndOK c.thrombolysis_no_scan_not_quick_enough ∧
  IndOK c.thrombolysis_no_no_reason

/-- A cleaned-table row that passes every patient filter of the
reformatter; the team and the thrombolysis indicator vary. -/
def mkRow (team : String) (thromb : ℤ) : DataRow :=
  { year := some 2020, infarction := some 1, arrive_by_ambulance := some 1,
    thrombectomy := some 0, prior_disability := some 0,
    discharge_disability := some 3, onset_to_arrival_time := some 50,
    onset_known := some 1, stroke_team := team, thrombolysis := some thromb,
    arrival_to_scan_time := some 20, scan_to_thrombolysis_time := some 30 }

/-- The synthetic two-site table of the hospital-volume claim: site A
has exactly 250 admissions of which 9 thrombolysed, site B has 251
admissions of which 10 thrombolysed. -/
def volumeGateTable : List DataRow :=
  List.replicate 9 (mkRow ("A") 1) ++ List.replicate 241 (mkRow ("A") 0) ++
  List.replicate 10 (mkRow ("B") 1) ++ List.replicate 241 (mkRow ("B") 0)

/-- The site-B rows of `volumeGateTable`. -/
def volumeGateSurvivors : List DataRow :=
  List.replicate 10 (mkRow ("B") 1) ++ List.replicate 241 (mkRow ("B") 0)

/-- A row with a missing onset-to-arrival duration that passes every
other patient filter (thrombolysis not given). -/
def missingOnsetRow : DataRow :=
  { mkRow ("A") 0 with onset_to_arrival_time := none }

/-- A 250-row single-site table (10 thrombolysed) that passes both
hospital-volume gates; its last row has a missing onset-to-arrival
duration. -/
def pipeTable : List DataRow :=
  List.replicate 10 (mkRow ("A") 1) ++ List.replicate 239 (mkRow ("A") 0) ++
  [missingOnsetRow]

/-- A fully recorded raw row (stroke type present, all comorbidities
answered, complete severity assessment). -/
def rawEx : RawRecord :=
  { TeamName := "Leeds", S1Gender := some ("M"), S2StrokeType := some ("I"),
    OnsettoArrivalMinutes := some 60, S1OnsetTimeType := some ("P"),
    S1OnsetDateType := some ("P"), S1ArriveByAmbulance := some ("Y"),
    CallConnectedtoArrivalMinutes := some 10,
    ArrivalPatientLocationtoArrivalMinutes := some 20,
    DeparturePatientLocationtoArrivalMinutes := some 40,
    WheelsStoptoArrivalMinutes := some 60,
    ArrivaltoBrainImagingMinutes := some 25,
    S2Thrombolysis := some ("Y"),
    ArrivaltoThrombolysisMinutes := some 55,
    ArrivaltoArterialPunctureMinutes := none,
    S2CoMCongestiveHeartFailure := some ("N"),
    S2CoMHypertension := some ("Y"),
    S2CoMAtrialFibrillation := some ("Y"),
    S2CoMDiabetes := some ("N"),
    S2CoMStrokeTIA := some ("N"),
    S2CoMAFAntiplatelet := some ("N"),
    S2CoMAFAnticoagulent := some ("Y"),
    S2CoMAFAnticoagulentVitK := some 1,
    S2CoMAFAnticoagulentDOAC := some 0,
    S2CoMAFAnticoagulentHeparin := some 0,
    S2NewAFDiagnosis := some ("N"),
    S2RankinBeforeStroke := some 0,
    nihssScores := [some 1, some 0, some 0, some 0, some 0, some 0, some 2,
      some 0, some 0, some 0, some 0, some 0, some 0, some 0, some 0],
    S7DischargeType := some ("H"),
    ArrivalToDeathDays := none,
    S7RankinDischarge := some 2,
    S8Rankin6Month := some 2,
    S2ThrombolysisNoReason := none }

/-- The raw row `rawEx` with the stroke-type cell left empty. -/
def rawNoStrokeType : RawRecord :=
  { rawEx with S2StrokeType := none }

/-- A two-row raw table, one row of which is missing the stroke type. -/
def rawPair : List RawRecord :=
  [rawEx, rawNoStrokeType]

/-- The raw row `rawEx` with an empty parent-anticoagulant answer and
empty anticoagulant sub-type cells. -/
def rawNoAnticoag : RawRecord :=
  { rawEx with S2CoMAFAnticoagulent := none,
               S2CoMAFAnticoagulentVitK := none,
               S2CoMAFAnticoagulentDOAC := none,
               S2CoMAFAnticoagulentHeparin := none }

/-- The raw row `rawEx` with every one of the fifteen severity
sub-score cells empty. -/
def rawAllNihssMissing : RawRecord :=
  { rawEx with nihssScores := List.replicate 15 none }

/-- A reformatted-table row as the fold splitter reads it. -/
def splitRowEx : SplitRow :=
  { stroke_team := "Leeds", stroke_team_id := 7, discharge_disability := 3 }

/-! ## Helper lemmas -/

theorem countP_add_countP_not {α : Type} (p : α → Bool) (l : List α) :
    l.countP p + l.countP (fun a => !(p a)) = l.length := by
  induction l with
  | nil => rfl
  | cons hd tl ih =>
    rcases Bool.eq_false_or_eq_true (p hd) with h | h <;>
      simp [List.countP_cons, h] <;> omega

theorem foldl_vmin_none (l : List Val) (acc : Val)
    (hl : ∀ v ∈ l, v = none) (ha : acc = none) :
    l.foldl vmin acc = none := by
  induction l generalizing acc with
  | nil => exact ha
  | cons hd tl ih =>
    have hhd : hd = none := hl hd (by simp)
    show List.foldl vmin (vmin acc hd) tl = none
    refine ih (vmin acc hd) (fun v hv => hl v (by simp [hv])) ?_
    simp [hhd, ha, vmin]

theorem vminList_all_none (l : List Val) (hl : ∀ v ∈ l, v = none) :
    vminList l = none :=
  foldl_vmin_none l none hl rfl

theorem ambPass_nihss (c : CleanRecord) :
    (ambPass c).nihss_complete = c.nihss_complete := by
  simp only [ambPass]
  split <;> split <;> rfl

theorem onsetPass_nihss (c : CleanRecord) :
    (onsetPass c).nihss_complete = c.nihss_complete := by
  simp only [onsetPass]
  split <;> rfl

theorem anticoagPass_nihss (c : CleanRecord) :
    (anticoagPass c).nihss_complete = c.nihss_complete := by
  simp only [anticoagPass]
  split <;> rfl

theorem deathPass_nihss (c : CleanRecord) :
    (deathPass c).nihss_complete = c.nihss_complete := by
  simp only [deathPass]
  split <;> rfl

theorem cleanRow_nihss (raw : RawRecord) :
    (cleanRow raw).nihss_complete =
      some (if vminList raw.nihssScores = some (-1) then 0 else 1) := by
  unfold cleanRow
  rw [deathPass_nihss, anticoagPass_nihss, onsetPass_nihss, ambPass_nihss]
  rfl

/-! ## Claims -/

/-- C1, counterexample.  On a two-row raw table whose second row has no
stroke type, the saved issues log still has two rows, not the one row
the claim's "raw count minus dropped count" formula predicts; only the
clean table is filtered. -/
theorem c1_counterexample :
    (issuesTable rawPair).length = 2 ∧
    (cleanTable rawPair).length = 1 ∧
    rawPair.countP (fun r => ((cleanRow r).infarction).isNone) = 1 ∧
    (issuesTable rawPair).length ≠
      rawPair.length -
        rawPair.countP (fun r => ((cleanRow r).infarction).isNone) := by
  decide

/-- C1, amended.  The issue flags are computed pre-drop and the issues
log is saved unfiltered, so the IssueTable row count equals the raw row
count; only the CleanTable is filtered by the stroke-type mask, so its
row count is the raw count minus the rows with unset stroke type. -/
theorem c1_table_lengths (raws : List RawRecord) :
    (issuesTable raws).length = raws.length ∧
    (cleanTable raws).length =
      raws.length -
        raws.countP (fun r => ((cleanRow r).infarction).isNone) := by
  constructor
  · simp [issuesTable]
  · have hlen : (cleanTable raws).length =
        raws.countP (fun r => ((cleanRow r).infarction).isSome) := by
      unfold cleanTable
      rw [← List.countP_eq_length_filter, List.countP_map]
      rfl
    have hnot : (fun r : RawRecord => !((cleanRow r).infarction).isSome) =
        (fun r : RawRecord => ((cleanRow r).infarction).isNone) := by
      funext r
      exact Option.bnot_isSome _
    have hsum := countP_add_countP_not
      (fun r : RawRecord => ((cleanRow r).infarction).isSome) raws
    rw [hnot] at hsum
    omega

/-- C1, witness for the amended theorem at a concrete table. -/
theorem c1_witness :
    (issuesTable rawPair).length = rawPair.length := by
  exact (c1_table_lengths rawPair).1

/-- C2, counterexample.  At a concrete row the stratification key is
the team-name string joined to the outcome, not the concatenation of
the anonymised site code with the outcome (with or without the dash). -/
theorem c2_counterexample :
    strat splitRowEx ≠ stratSpecKey splitRowEx ∧
    strat splitRowEx ≠ stratSpecKeyNoSep splitRowEx := by
  decide

/-- C2, amended.  The stratification key is the site label (team-name
string), a dash, and the printed outcome label — one composite key per
row — and it does not depend on the anonymised site code at all. -/
theorem c2_strat_key (r : SplitRow) (z : ℤ) :
    strat r = r.stroke_team ++ "-" ++ toString r.discharge_disability ∧
    strat { r with stroke_team_id := z } = strat r :=
  ⟨rfl, rfl⟩

/-- C2, witness: changing the anonymised code of a concrete row leaves
its stratification key unchanged. -/
theorem c2_witness :
    strat { splitRowEx with stroke_team_id := 42 } = strat splitRowEx :=
  (c2_strat_key splitRowEx 42).2

/-- C9.  For k = 5 over any n-row table and any per-row test-fold
assignment, every row lies in exactly one test partition, distinct test
partitions are disjoint, and each train set is the exact complement of
its test set. -/
theorem c9_kfold_partition (n : ℕ) (tf : Fin n → Fin 5) :
    (∀ x : Fin n, ∃! i : Fin 5, x ∈ testFold n 5 tf i) ∧
    (∀ i j : Fin 5, i ≠ j → ∀ x : Fin n,
      ¬(x ∈ testFold n 5 tf i ∧ x ∈ testFold n 5 tf j)) ∧
    (∀ (i : Fin 5) (x : Fin n),
      (x ∈ trainFold n 5 tf i ∨ x ∈ testFold n 5 tf i) ∧
      ¬(x ∈ trainFold n 5 tf i ∧ x ∈ testFold n 5 tf i) ∧
      (x ∈ trainFold n 5 tf i ↔ x ∉ testFold n 5 tf i)) := by
  have hmem : ∀ (x : Fin n) (i : Fin 5),
      x ∈ testFold n 5 tf i ↔ tf x = i := by
    intro x i
    simp [testFold, List.mem_filter, List.mem_finRange]
  have hmem' : ∀ (x : Fin n) (i : Fin 5),
      x ∈ trainFold n 5 tf i ↔ tf x ≠ i := by
    intro x i
    simp [trainFold, List.mem_filter, List.mem_finRange]
  refine ⟨?_, ?_, ?_⟩
  · intro x
    exact ⟨tf x, (hmem x (tf x)).2 rfl,
      fun i hi => ((hmem x i).1 hi).symm⟩
  · intro i j hij x ⟨h1, h2⟩
    exact hij (((hmem x i).1 h1).symm.trans ((hmem x j).1 h2))
  · intro i x
    by_cases h : tf x = i
    · exact ⟨Or.inr ((hmem x i).2 h),
        fun ⟨ht, _⟩ => ((hmem' x i).1 ht) h,
        ⟨fun ht => absurd h ((hmem' x i).1 ht),
         fun hn => absurd ((hmem x i).2 h) hn⟩⟩
    · exact ⟨Or.inl ((hmem' x i).2 h),
        fun ⟨_, ht⟩ => h ((hmem x i).1 ht),
        ⟨fun _ hn => h ((hmem x i).1 hn),
         fun _ => (hmem' x i).2 h⟩⟩

/-- C9, witness at a concrete assignment: with every row assigned to
fold 0, row 0 is not in both test partitions 0 and 1. -/
theorem c9_witness :
    ¬((0 : Fin 2) ∈ testFold 2 5 (fun _ => (0 : Fin 5)) 0 ∧
      (0 : Fin 2) ∈ testFold 2 5 (fun _ => (0 : Fin 5)) 1) :=
  (c9_kfold_partition 2 (fun _ => (0 : Fin 5))).2.1 0 1 (by decide) 0

/-- C10.  The assessment-complete flag is 0 exactly when the row-wise
minimum (which skips missing cells) of the fifteen severity sub-scores
equals -1; when every sub-score is missing the minimum is missing, the
test fails, and the flag is 1. -/
theorem c10_nihss_complete (raw : RawRecord) :
    ((cleanRow raw).nihss_complete = some 0 ↔
      vminList raw.nihssScores = some (-1)) ∧
    ((∀ v ∈ raw.nihssScores, v = none) →
      (cleanRow raw).nihss_complete = some 1) := by
  rw [cleanRow_nihss]
  constructor
  · split_ifs with h <;> simp [h]
  · intro hall
    rw [if_neg (by simp [vminList_all_none raw.nihssScores hall])]

/-- C10, witness: a raw row with all fifteen sub-scores missing is
reported assessment-complete. -/
theorem c10_witness :
    (cleanRow rawAllNihssMissing).nihss_complete = some 1 :=
  (c10_nihss_complete rawAllNihssMissing).2 (by decide)

/-- C3.  In every row of the reformatted cohort the composite
onset-to-thrombolysis duration is exactly -100 when the row's
scan-to-thrombolysis duration is -100, and exactly the sum of the three
duration components otherwise. -/
theorem c3_onset_to_thrombolysis (data : List DataRow) (r : CohortRow)
    (hr : r ∈ reformat data) :
    (r.scan_to_thrombolysis_time = some (-100) →
      r.onset_to_thrombolysis_time = some (-100)) ∧
    (r.scan_to_thrombolysis_time ≠ some (-100) →
      r.onset_to_thrombolysis_time =
        vadd (vadd r.onset_to_arrival_time r.arrival_to_scan_time)
          r.scan_to_thrombolysis_time) := by
  simp only [reformat, List.mem_map] at hr
  obtain ⟨s, _, rfl⟩ := hr
  show (s.scan_to_thrombolysis_time = some (-100) →
      calculate_onset_to_thrombolysis s = some (-100)) ∧
    (s.scan_to_thrombolysis_time ≠ some (-100) →
      calculate_onset_to_thrombolysis s =
        vadd (vadd s.onset_to_arrival_time s.arrival_to_scan_time)
          s.scan_to_thrombolysis_time)
  unfold calculate_onset_to_thrombolysis
  split_ifs with h
  · exact ⟨fun _ => rfl, fun hne => absurd h hne⟩
  · exact ⟨fun he => absurd he h, fun _ => rfl⟩

set_option maxRecDepth 10000 in
/-- C3, witness: a treated row of a concrete reformatted cohort whose
composite duration is the component sum 50 + 20 + 30. -/
theorem c3_witness :
    (addOnsetToThrombolysis (setScanRow (mkRow ("A") 1))).onset_to_thrombolysis_time =
      vadd (vadd (some 50) (some 20)) (some 30) :=
  (c3_onset_to_thrombolysis pipeTable
    (addOnsetToThrombolysis (setScanRow (mkRow ("A") 1))) (by decide)).2
    (by decide)

set_option maxRecDepth 10000 in
/-- C4.  Membership in the hospital-volume-filtered table is exactly:
the row was in the input, its site's admission count over the input is
at least 250, and its site's thrombolysis count recomputed over the
admission-filtered table is at least 10; on the synthetic two-site
table (250 admissions / 9 treatments vs 251 / 10) only the second
site's rows survive the two sequential gates. -/
theorem c4_hospital_gates :
    (∀ (data : List DataRow) (r : DataRow),
      r ∈ hospitalFilter data ↔
        r ∈ data ∧
        min_hospital_admission_threshold ≤
          stroke_team_admissions data r.stroke_team ∧
        min_hospital_thrombolysis_threshold ≤
          stroke_team_thrombolysis
            (filter_stroke_team data min_hospital_admission_threshold
              (stroke_team_admissions data)) r.stroke_team) ∧
    hospitalFilter volumeGateTable = volumeGateSurvivors := by
  constructor
  · intro data r
    simp only [hospitalFilter, filter_stroke_team, List.mem_filter,
      decide_eq_true_eq]
    tauto
  · decide

/-- C4, witness: the synthetic-table conjunct of the theorem at its
concrete input. -/
theorem c4_witness :
    hospitalFilter volumeGateTable = volumeGateSurvivors :=
  c4_hospital_gates.2

/-- C6, counterexample.  A row whose onset-to-arrival cell is missing
passes the patient filter chain (the mask `<= 0 == False` is True on a
NaN cell), so the chain does not keep only positive-onset rows. -/
theorem c6_counterexample :
    filterPatients [missingOnsetRow] = [missingOnsetRow] ∧
    missingOnsetRow.onset_to_arrival_time = none := by
  decide

/-- Scan-time sentinel edit leaves the onset-to-arrival column alone. -/
theorem setScanRow_onset (r : DataRow) :
    (setScanRow r).onset_to_arrival_time = r.onset_to_arrival_time := by
  unfold setScanRow
  split <;> rfl

/-- C6, amended.  Every row of the reformatted cohort has an
onset-to-arrival duration that is either missing or strictly positive:
the filter chain removes recorded non-positive values but lets missing
values through. -/
theorem c6_onset_filter (data : List DataRow) (r : CohortRow)
    (hr : r ∈ reformat data) :
    r.onset_to_arrival_time = none ∨
    vgt r.onset_to_arrival_time 0 = true := by
  simp only [reformat, List.mem_map] at hr
  obtain ⟨s, hs, rfl⟩ := hr
  obtain ⟨u, hu, rfl⟩ := hs
  show (setScanRow u).onset_to_arrival_time = none ∨
    vgt (setScanRow u).onset_to_arrival_time 0 = true
  rw [setScanRow_onset]
  simp only [hospitalFilter, filter_stroke_team, List.mem_filter] at hu
  obtain ⟨⟨hu2, _⟩, _⟩ := hu
  rw [List.mem_map] at hu2
  obtain ⟨w, hw, rfl⟩ := hu2
  show w.onset_to_arrival_time = none ∨
    vgt w.onset_to_arrival_time 0 = true
  simp only [filterPatients, List.mem_filter] at hw
  obtain ⟨⟨_, honset⟩, _⟩ := hw
  cases hcase : w.onset_to_arrival_time with
  | none => exact Or.inl rfl
  | some x =>
    rw [hcase] at honset
    right
    simp only [vle, Bool.not_eq_true', decide_eq_false_iff_not] at honset
    simp [vgt]
    omega

set_option maxRecDepth 10000 in
/-- C6, witness: the missing-onset row of a concrete cohort appears in
the reformatted output with its onset-to-arrival cell still missing. -/
theorem c6_witness :
    (addOnsetToThrombolysis (setScanRow missingOnsetRow)).onset_to_arrival_time = none ∨
    vgt (addOnsetToThrombolysis (setScanRow missingOnsetRow)).onset_to_arrival_time 0 = true :=
  c6_onset_filter pipeTable _ (by decide)

/-- C5, counterexample.  An empty parent-anticoagulant cell does not
stay missing: the cleaner replaces it with 0 (cell "Replace
afib_anticoagulant NaN with 0"), although it is a comorbidity
indicator and not the antiplatelet one. -/
theorem c5_counterexample :
    rawNoAnticoag.S2CoMAFAnticoagulent = none ∧
    (cleanRow rawNoAnticoag).afib_anticoagulant = some 0 ∧
    (cleanRow rawNoAnticoag).afib_anticoagulant ≠ none := by
  decide

/-- C5, amended.  At the field-mapping stage: the plain comorbidity
indicators map Y/N/NB to 1/0/0 and keep missing as missing; the
antiplatelet indicator is additionally forced to 0 when the parent
atrial-fibrillation indicator is 0 and it is itself missing (and stays
missing otherwise); the parent anticoagulant indicator and the three
anticoagulant sub-types all treat missing as 0 unconditionally (the
later anticoagulant-discrepancy pass may still null those four). -/
theorem c5_comorbidity_mapping (raw : RawRecord) :
    (comorbid_marker (some ("Y")) = some 1 ∧
     comorbid_marker (some ("N")) = some 0 ∧
     comorbid_marker (some ("NB")) = some 0 ∧
     comorbid_marker none = none) ∧
    (raw.S2CoMCongestiveHeartFailure = none →
      (cleanBase raw).congestive_heart_failure = none) ∧
    (raw.S2CoMHypertension = none → (cleanBase raw).hypertension = none) ∧
    (raw.S2CoMAtrialFibrillation = none →
      (cleanBase raw).atrial_fibrillation = none) ∧
    (raw.S2CoMDiabetes = none → (cleanBase raw).diabetes = none) ∧
    (raw.S2CoMStrokeTIA = none → (cleanBase raw).prior_stroke_tia = none) ∧
    (raw.S2CoMAFAntiplatelet = none ∧
      comorbid_marker raw.S2CoMAtrialFibrillation = some 0 →
      (cleanBase raw).afib_antiplatelet = some 0) ∧
    (raw.S2CoMAFAntiplatelet = none ∧
      comorbid_marker raw.S2CoMAtrialFibrillation ≠ some 0 →
      (cleanBase raw).afib_antiplatelet = none) ∧
    (raw.S2CoMAFAnticoagulent = none →
      (cleanBase raw).afib_anticoagulant = some 0) ∧
    (raw.S2CoMAFAnticoagulentVitK = none →
      (cleanBase raw).afib_vit_k_anticoagulant = some 0) ∧
    (raw.S2CoMAFAnticoagulentDOAC = none →
      (cleanBase raw).afib_doac_anticoagulant = some 0) ∧
    (raw.S2CoMAFAnticoagulentHeparin = none →
      (cleanBase raw).afib_heparin_anticoagulant = some 0) := by
  refine ⟨⟨rfl, rfl, rfl, rfl⟩, ?_, ?_, ?_, ?_, ?_, ?_, ?_, ?_, ?_, ?_, ?_⟩
  · intro h
    show comorbid_marker raw.S2CoMCongestiveHeartFailure = none
    rw [h]
    rfl
  · intro h
    show comorbid_marker raw.S2CoMHypertension = none
    rw [h]
    rfl
  · intro h
    show comorbid_marker raw.S2CoMAtrialFibrillation = none
    rw [h]
    rfl
  · intro h
    show comorbid_marker raw.S2CoMDiabetes = none
    rw [h]
    rfl
  · intro h
    show comorbid_marker raw.S2CoMStrokeTIA = none
    rw [h]
    rfl
  · intro ⟨h1, h2⟩
    show (if comorbid_marker raw.S2CoMAtrialFibrillation = some 0 ∧
        comorbid_marker raw.S2CoMAFAntiplatelet = none then some 0
      else comorbid_marker raw.S2CoMAFAntiplatelet) = some 0
    rw [if_pos ⟨h2, by rw [h1]; rfl⟩]
  · intro ⟨h1, h2⟩
    show (if comorbid_marker raw.S2CoMAtrialFibrillation = some 0 ∧
        comorbid_marker raw.S2CoMAFAntiplatelet = none then some 0
      else comorbid_marker raw.S2CoMAFAntiplatelet) = none
    rw [if_neg (fun hc => h2 hc.1), h1]
    rfl
  · intro h
    show anticoag_type_map (comorbid_marker raw.S2CoMAFAnticoagulent) = some 0
    rw [h]
    rfl
  · intro h
    show anticoag_type_map raw.S2CoMAFAnticoagulentVitK = some 0
    rw [h]
    rfl
  · intro h
    show anticoag_type_map raw.S2CoMAFAnticoagulentDOAC = some 0
    rw [h]
    rfl
  · intro h
    show anticoag_type_map raw.S2CoMAFAnticoagulentHeparin = some 0
    rw [h]
    rfl

/-- C5, witness: the amended theorem applied to the concrete raw row
with an empty parent-anticoagulant cell. -/
theorem c5_witness :
    (cleanBase rawNoAnticoag).afib_anticoagulant = some 0 :=
  (c5_comorbidity_mapping rawNoAnticoag).2.2.2.2.2.2.2.2.1 rfl

theorem indOK_none : IndOK none := Or.inr (Or.inr rfl)

theorem indOK_zero : IndOK (some 0) := Or.inl rfl

theorem indOK_one : IndOK (some 1) := Or.inr (Or.inl rfl)

theorem indOK_mapGender (v : Option String) : IndOK (mapGender v) := by
  cases v with
  | none => exact indOK_none
  | some s =>
    simp only [mapGender]
    split_ifs <;> first | exact indOK_one | exact indOK_zero | exact indOK_none

theorem indOK_mapInfarction (v : Option String) : IndOK (mapInfarction v) := by
  cases v with
  | none => exact indOK_none
  | some s =>
    simp only [mapInfarction]
    split_ifs <;> first | exact indOK_one | exact indOK_zero | exact indOK_none

theorem indOK_mapOnsetKnown (v : Option String) : IndOK (mapOnsetKnown v) := by
  cases v with
  | none => exact indOK_none
  | some s =>
    simp only [mapOnsetKnown]
    split_ifs <;> first | exact indOK_one | exact indOK_zero | exact indOK_none

theorem indOK_mapPreciseOnset (v : Option String) :
    IndOK (mapPreciseOnset v) := by
  cases v with
  | none => exact indOK_none
  | some s =>
    simp only [mapPreciseOnset]
    split_ifs <;> first | exact indOK_one | exact indOK_zero | exact indOK_none

theorem indOK_mapSleep (v : Option String) : IndOK (mapSleep v) := by
  cases v with
  | none => exact indOK_none
  | some s =>
    simp only [mapSleep]
    split_ifs <;> first | exact indOK_one | exact indOK_zero | exact indOK_none

theorem indOK_mapByAmbulance (v : Option String) :
    IndOK (mapByAmbulance v) := by
  cases v with
  | none => exact indOK_none
  | some s =>
    simp only [mapByAmbulance]
    split_ifs <;> first | exact indOK_one | exact indOK_zero | exact indOK_none

theorem indOK_mapThrombolysisYN (v : Option String) :
    IndOK (mapThrombolysisYN v) := by
  cases v with
  | none => exact indOK_none
  | some s =>
    simp only [mapThrombolysisYN]
    split_ifs <;> first | exact indOK_one | exact indOK_zero | exact indOK_none

theorem indOK_comorbid_marker (v : Option String) :
    IndOK (comorbid_marker v) := by
  cases v with
  | none => exact indOK_none
  | some s =>
    simp only [comorbid_marker]
    split_ifs <;> first | exact indOK_one | exact indOK_zero | exact indOK_none

theorem indOK_anticoag_type_map (v : Val) : IndOK (anticoag_type_map v) := by
  cases v with
  | none => exact indOK_zero
  | some x =>
    simp only [anticoag_type_map]
    split_ifs <;> first | exact indOK_one | exact indOK_zero | exact indOK_none

theorem indOK_mapNewAfib (v : Option String) : IndOK (mapNewAfib v) := by
  cases v with
  | none => exact indOK_zero
  | some s =>
    simp only [mapNewAfib]
    split_ifs <;> first | exact indOK_one | exact indOK_zero | exact indOK_none

theorem indOK_make_no_thrombolysis (category : String) (v : Option String) :
    IndOK (make_no_thrombolysis category v) := by
  cases v with
  | none => exact indOK_zero
  | some s =>
    simp only [make_no_thrombolysis]
    split_ifs <;> first | exact indOK_one | exact indOK_zero | exact indOK_none

theorem indOK_vmax {a b : Val} (ha : IndOK a) (hb : IndOK b) :
    IndOK (vmax a b) := by
  rcases ha with h | h | h <;> rcases hb with h' | h' | h' <;>
    subst h <;> subst h' <;> first
      | exact indOK_zero | exact indOK_one | exact indOK_none

theorem indOK_ite_zero_one (p : Prop) [Decidable p] :
    IndOK (some (if p then (0 : ℤ) else 1)) := by
  split_ifs <;> first | exact indOK_zero | exact indOK_one

theorem indOK_ite_one_zero (p : Prop) [Decidable p] :
    IndOK (some (if p then (1 : ℤ) else 0)) := by
  split_ifs <;> first | exact indOK_one | exact indOK_zero

theorem indFieldsOK_cleanBase (raw : RawRecord) :
    IndFieldsOK (cleanBase raw) := by
  refine ⟨indOK_mapGender _, indOK_mapInfarction _, indOK_mapOnsetKnown _,
    indOK_mapPreciseOnset _, indOK_mapSleep _, indOK_mapByAmbulance _,
    indOK_mapThrombolysisYN _, ?_, indOK_comorbid_marker _,
    indOK_comorbid_marker _, indOK_comorbid_marker _, indOK_comorbid_marker _,
    indOK_comorbid_marker _, ?_, indOK_anticoag_type_map _,
    indOK_anticoag_type_map _, indOK_anticoag_type_map _,
    indOK_anticoag_type_map _, indOK_mapNewAfib _,
    indOK_vmax (indOK_comorbid_marker _) (indOK_mapNewAfib _),
    indOK_ite_one_zero _, indOK_ite_zero_one _,
    indOK_make_no_thrombolysis _ _, indOK_make_no_thrombolysis _ _,
    indOK_make_no_thrombolysis _ _, indOK_make_no_thrombolysis _ _⟩
  · show IndOK
      (some (if raw.ArrivaltoArterialPunctureMinutes.isNone then (0 : ℤ) else 1))
    exact indOK_ite_zero_one _
  · show IndOK (if _ then some 0 else comorbid_marker raw.S2CoMAFAntiplatelet)
    split_ifs
    · exact indOK_zero
    · exact indOK_comorbid_marker _

theorem indFieldsOK_ambPass {c : CleanRecord} (h : IndFieldsOK c) :
    IndFieldsOK (ambPass c) := by
  obtain ⟨h1, h2, h3, h4, h5, h6, h7, h8, h9, h10, h11, h12, h13, h14, h15,
    h16, h17, h18, h19, h20, h21, h22, h23, h24, h25, h26⟩ := h
  simp only [ambPass]
  split <;> split <;>
    exact ⟨h1, h2, h3, h4, h5, by first | exact indOK_none | exact h6, h7, h8,
      h9, h10, h11, h12, h13, h14, h15, h16, h17, h18, h19, h20, h21, h22,
      h23, h24, h25, h26⟩

theorem indFieldsOK_onsetPass {c : CleanRecord} (h : IndFieldsOK c) :
    IndFieldsOK (onsetPass c) := by
  obtain ⟨h1, h2, h3, h4, h5, h6, h7, h8, h9, h10, h11, h12, h13, h14, h15,
    h16, h17, h18, h19, h20, h21, h22, h23, h24, h25, h26⟩ := h
  simp only [onsetPass]
  split <;>
    exact ⟨h1, h2, h3, h4, h5, h6, h7, h8, h9, h10, h11, h12, h13, h14, h15,
      h16, h17, h18, h19, h20, h21, h22, h23, h24, h25, h26⟩

theorem indFieldsOK_anticoagPass {c : CleanRecord} (h : IndFieldsOK c) :
    IndFieldsOK (anticoagPass c) := by
  obtain ⟨h1, h2, h3, h4, h5, h6, h7, h8, h9, h10, h11, h12, h13, h14, h15,
    h16, h17, h18, h19, h20, h21, h22, h23, h24, h25, h26⟩ := h
  simp only [anticoagPass]
  split <;>
    exact ⟨h1, h2, h3, h4, h5, h6, h7, h8, h9, h10, h11, h12, h13, h14,
      by first | exact indOK_none | exact h15,
      by first | exact indOK_none | exact h16,
      by first | exact indOK_none | exact h17,
      by first | exact indOK_none | exact h18,
      h19, h20, h21, h22, h23, h24, h25, h26⟩

theorem indFieldsOK_deathPass {c : CleanRecord} (h : IndFieldsOK c) :
    IndFieldsOK (deathPass c) := by
  obtain ⟨h1, h2, h3, h4, h5, h6, h7, h8, h9, h10, h11, h12, h13, h14, h15,
    h16, h17, h18, h19, h20, h21, h22, h23, h24, h25, h26⟩ := h
  simp only [deathPass]
  split <;>
    exact ⟨h1, h2, h3, h4, h5, h6, h7, h8, h9, h10, h11, h12, h13, h14, h15,
      h16, h17, h18, h19, h20,
      by first | exact indOK_none | exact h21,
      h22, h23, h24, h25, h26⟩

theorem count_set_add {α : Type} [DecidableEq α] (l : List α) (n : ℕ) (b : α)
    (hn : n < l.length) (a : α) :
    (l.set n b).count a + (if l[n] = a then 1 else 0) =
      l.count a + (if b = a then 1 else 0) := by
  induction l generalizing n with
  | nil => simp at hn
  | cons hd tl ih =>
    cases n with
    | zero =>
      simp only [List.set_cons_zero, List.count_cons, List.getElem_cons_zero,
        beq_iff_eq]
      split_ifs <;> simp_all
    | succ n =>
      have hn' : n < tl.length := by simpa using hn
      have htl := ih n hn'
      simp only [List.set_cons_succ, List.count_cons, beq_iff_eq,
        List.getElem_cons_succ]
      omega

theorem listSwap_perm {α : Type} [DecidableEq α] (l : List α) (i j : ℕ) :
    (listSwap l i j).Perm l := by
  unfold listSwap
  split
  case _ x y h1 h2 =>
    obtain ⟨hi, hxi⟩ := List.getElem?_eq_some.1 h1
    obtain ⟨hj, hyj⟩ := List.getElem?_eq_some.1 h2
    rw [List.perm_iff_count]
    intro a
    have hj' : j < (l.set i y).length := by simpa using hj
    have e1 := count_set_add l i y hi a
    have e2 := count_set_add (l.set i y) j x hj' a
    rw [hxi] at e1
    by_cases hij : i = j
    · subst hij
      have hxy : x = y := by rw [← hxi, ← hyj]
      subst hxy
      rw [List.getElem_set_self hj'] at e2
      omega
    · rw [List.getElem_set_ne hij, hyj] at e2
      omega
  case _ =>
    exact List.Perm.refl _

theorem shuffleAux_perm {α : Type} [DecidableEq α] (js : List ℕ) (i : ℕ)
    (l : List α) : (shuffleAux js i l).Perm l := by
  induction js generalizing i l with
  | nil => cases i <;> exact List.Perm.refl _
  | cons j js ih =>
    cases i with
    | zero => exact List.Perm.refl _
    | succ i =>
      exact (ih i (listSwap l (i + 1) (j % (i + 2)))).trans
        (listSwap_perm l (i + 1) (j % (i + 2)))

theorem enum_map_addone {σ : Type} (l : List σ) :
    l.enum.map (fun p => p.1 + 1) = List.range' 1 l.length := by
  rw [List.range'_eq_map_range, ← List.enum_map_fst l, List.map_map]
  exact List.map_congr_left (fun p _ => Nat.add_comm p.1 1)

/-- C7, counterexample.  The two enumeration orders of the same
two-label set feed the same seeded shuffle but produce different
label-to-code dictionaries, whichever value the seed's first draw has
modulo 2 — so the mapping is not a function of the cleaned input table
alone. -/
theorem c7_counterexample :
    (["A", "B"] : List String).Perm ["B", "A"] ∧
    teamsCodeDict [0] ["A", "B"] ≠ teamsCodeDict [0] ["B", "A"] ∧
    teamsCodeDict [1] ["A", "B"] ≠ teamsCodeDict [1] ["B", "A"] := by
  decide

/-- C7, amended.  Given the seeded draw stream and a fixed enumeration
order of the distinct site labels, the assignment is deterministic: the
dictionary lists the shuffled labels in order, pairs them with the
codes 1..n in shuffle order, and the shuffled list is a permutation of
the labels.  Python's `set` fixes no enumeration order (string hashing
is salted per process), so only this pair determines the mapping. -/
theorem c7_site_code_assignment (js : List ℕ) (teams : List String) :
    (teamsCodeDict js teams).map Prod.fst = shuffleWith js teams ∧
    (teamsCodeDict js teams).map Prod.snd = List.range' 1 teams.length ∧
    (shuffleWith js teams).Perm teams := by
  have hperm : (shuffleWith js teams).Perm teams := shuffleAux_perm _ _ _
  refine ⟨?_, ?_, hperm⟩
  · unfold teamsCodeDict
    rw [List.map_map]
    exact List.enum_map_snd _
  · unfold teamsCodeDict
    rw [List.map_map, ← hperm.length_eq]
    exact enum_map_addone _

/-- C7, witness: at a concrete draw stream and label order the codes
are exactly 1 and 2. -/
theorem c7_witness :
    (teamsCodeDict [0] ["A", "B"]).map Prod.snd = List.range' 1 2 :=
  (c7_site_code_assignment [0] ["A", "B"]).2.1

/-- C8.  After the whole cleaning of any raw row — derivations and all
consistency passes — every derived boolean/indicator field (sex, stroke
type, the onset indicators, transport, thrombolysis, thrombectomy,
every comorbidity indicator, death, the assessment-complete flag, the
reason-for-no-treatment indicators) is 0, 1 or missing. -/
theorem c8_indicator_range (raw : RawRecord) : IndFieldsOK (cleanRow raw) :=
  indFieldsOK_deathPass
    (indFieldsOK_anticoagPass
      (indFieldsOK_onsetPass
        (indFieldsOK_ambPass (indFieldsOK_cleanBase raw))))

/-- C8, witness: the invariant at a concrete raw row. -/
theorem c8_witness : IndFieldsOK (cleanRow rawEx) :=
  c8_indicator_range rawEx

end Stroke
